import Mathlib

/-!
Verification development for the S.V.E.N. inbound-message assistant
(Flask + Redis + Twilio).  The Python sources under `src/` are shallowly
embedded: Python dicts/JSON values become the inductive `PyVal`, the Redis
store becomes an association list from string keys to stored values
(`json.dumps`/`json.loads` round-trips are modeled as the identity on the
stored value, which is exact for the JSON-serialisable values the code
stores), wall-clock instants become explicit parameters (`ℤ` seconds for
`time.time()`, `String` for `datetime.now().isoformat()`), and functions
that can raise return `Except`/fall back exactly where the source catches.
-/

/-- Python/JSON-like runtime values, as stored and manipulated by the code
under `src/services` and `src/routes`.  Dicts are association lists in
insertion order, matching CPython dict semantics for the operations the
code performs (`get`, item assignment, `update`). -/
inductive PyVal where
  | none
  | bool (b : Bool)
  | int (n : Int)
  | str (s : String)
  | list (l : List PyVal)
  | dict (d : List (String × PyVal))

/-- Python dict lookup `d.get(k)` on an insertion-ordered association list
with unique keys (the code never creates duplicate keys). -/
def dictGet (d : List (String × PyVal)) (k : String) : Option PyVal :=
  match d with
  | [] => Option.none
  | (k₁, v) :: rest => if k₁ = k then some v else dictGet rest k

/-- Python dict item assignment `d[k] = v`: replaces the value at an
existing key in place, otherwise appends the new pair at the end. -/
def dictSet (d : List (String × PyVal)) (k : String) (v : PyVal) :
    List (String × PyVal) :=
  match d with
  | [] => [(k, v)]
  | (k₁, v₁) :: rest =>
      if k₁ = k then (k₁, v) :: rest else (k₁, v₁) :: dictSet rest k v

/-- Python `d.update(u)`: item-assigns every pair of `u` into `d` in order. -/
def dictUpdate (d u : List (String × PyVal)) : List (String × PyVal) :=
  u.foldl (fun acc kv => dictSet acc kv.1 kv.2) d

/-- Convenience: `profile.get(k)` when the profile value is a dict;
any other value yields no field (the callers only reach this with dicts). -/
def pvGet (p : PyVal) (k : String) : Option PyVal :=
  match p with
  | PyVal.dict d => dictGet d k
  | _ => Option.none

/-- Python truthiness of a value (`bool(v)`). -/
def pyTruthy : PyVal → Bool
  | PyVal.none => false
  | PyVal.bool b => b
  | PyVal.int n => n != 0
  | PyVal.str s => s != ""
  | PyVal.list l => !l.isEmpty
  | PyVal.dict d => !d.isEmpty

/-- Structural equality of values, used where the Python code compares
values with `==`/`!=`.  The code only ever compares scalars (strings and
`None`), for which this coincides with CPython equality. -/
def pyEq : PyVal → PyVal → Bool
  | PyVal.none, PyVal.none => true
  | PyVal.bool a, PyVal.bool b => a == b
  | PyVal.int a, PyVal.int b => a == b
  | PyVal.str a, PyVal.str b => a == b
  | PyVal.list a, PyVal.list b =>
      match a, b with
      | [], [] => true
      | x :: xs, y :: ys => pyEq x y && pyEq (PyVal.list xs) (PyVal.list ys)
      | _, _ => false
  | PyVal.dict a, PyVal.dict b =>
      match a, b with
      | [], [] => true
      | (k₁, x) :: xs, (k₂, y) :: ys =>
          k₁ == k₂ && pyEq x y && pyEq (PyVal.dict xs) (PyVal.dict ys)
      | _, _ => false
  | _, _ => false

/-- The external Redis key-value store, keyed by the string keys the code
builds (`sven:user:<hash>:profile`, `pending:<hash>`, `user:<hash>:profile`).
TTLs refresh on write and none of the verified claims observes expiry, so
TTL arguments are dropped from `setex`. -/
abbrev Store := List (String × PyVal)

/-- Redis `SET`/`SETEX` on the store model. -/
def storeSet (s : Store) (k : String) (v : PyVal) : Store := dictSet s k v

/-- Redis `GET` on the store model. -/
def storeGet (s : Store) (k : String) : Option PyVal := dictGet s k

/-- Redis `DEL` on the store model. -/
def storeDel (s : Store) (k : String) : Store :=
  s.filter (fun kv => kv.1 != k)

/-- Embeds `hash_phone_number` (src/services/redis_service.py lines 67-73):
normalisation removes spaces and dashes and strips one leading `+`.  The
salted SHA-256 digest truncated to 16 hex characters is modeled as an
abstract injective encoding of the normalised number; every claim below
depends only on the mapping being a deterministic function of the
normalised number, never on digest values or collisions. -/
def hash_phone_number (phone : String) : String :=
  let normalized := phone.data.filter (fun c => c != ' ' && c != '-')
  let normalized := match normalized with
    | c :: rest => if c = '+' then rest else c :: rest
    | [] => []
  "digest." ++ String.mk normalized

/-- Embeds `standard_user_profile` (src/services/redis_service.py lines
164-182); `now` stands for `datetime.now().isoformat()`. -/
def standard_user_profile (phone_hash now : String) : PyVal :=
  PyVal.dict
    [ ("phone_hash", PyVal.str phone_hash)
    , ("name", PyVal.none)
    , ("email", PyVal.none)
    , ("children", PyVal.list [])
    , ("settings", PyVal.dict
        [ ("privacy_notices", PyVal.bool false)
        , ("preferred_language", PyVal.str "en")
        , ("timezone", PyVal.str "UTC") ])
    , ("metadata", PyVal.dict
        [ ("created", PyVal.str now)
        , ("last_seen", PyVal.str now)
        , ("onboarding_complete", PyVal.bool false)
        , ("message_count", PyVal.int 0) ]) ]

/-- Embeds `get_user_profile` (src/services/redis_service.py lines 184-199)
with the Redis client available: reads key `sven:user:<hash>:profile` and
synthesises the default profile when the key is absent. -/
def get_user_profile (store : Store) (phone now : String) : PyVal :=
  let phone_hash := hash_phone_number phone
  match storeGet store ("sven:user:" ++ phone_hash ++ ":profile") with
  | some data => data
  | Option.none => standard_user_profile phone_hash now

/-- Embeds `delete_user_data` (src/services/redis_service.py lines 75-88)
with the Redis client available: deletes `sven:user:<hash>:profile` and
`pending:<hash>` and returns `True`. -/
def delete_user_data (store : Store) (phone : String) : Store × Bool :=
  let phone_hash := hash_phone_number phone
  ( storeDel (storeDel store ("sven:user:" ++ phone_hash ++ ":profile"))
      ("pending:" ++ phone_hash)
  , true )

/-- Embeds `store_pending_event` (src/services/redis_service.py lines
90-101): `setex` of the event at `pending:<hash>`. -/
def store_pending_event (store : Store) (phone : String) (event_data : PyVal) :
    Store :=
  let phone_hash := hash_phone_number phone
  storeSet store ("pending:" ++ phone_hash) event_data

/-- Embeds `get_pending_event` (src/services/redis_service.py lines
103-115): reads `pending:<hash>`; `json.loads(data) if data else None`
returns the stored value when present (a stored JSON string is never
empty, so its truthiness test always passes). -/
def get_pending_event (store : Store) (phone : String) : Option PyVal :=
  let phone_hash := hash_phone_number phone
  storeGet store ("pending:" ++ phone_hash)

/-- Embeds `clear_pending_event` (src/services/redis_service.py lines
117-128). -/
def clear_pending_event (store : Store) (phone : String) : Store :=
  let phone_hash := hash_phone_number phone
  storeDel store ("pending:" ++ phone_hash)

/-- Embeds `store_user_email` (src/services/redis_service.py lines 130-147)
with the Redis client available: loads the profile (never falsy, so the
`if not profile` default is dead), sets `email`, stamps
`metadata.last_seen`, writes back, returns `True`; a missing or non-dict
`metadata` raises inside the `try` and the function returns `False`
without writing. -/
def store_user_email (store : Store) (phone : String) (email_address : PyVal)
    (now : String) : Store × Bool :=
  let phone_hash := hash_phone_number phone
  let profile := get_user_profile store phone now
  let profile := if pyTruthy profile then profile
                 else standard_user_profile phone_hash now
  match profile with
  | PyVal.dict d =>
      let d := dictSet d "email" email_address
      match dictGet d "metadata" with
      | some (PyVal.dict md) =>
          let d := dictSet d "metadata"
            (PyVal.dict (dictSet md "last_seen" (PyVal.str now)))
          ( storeSet store ("sven:user:" ++ phone_hash ++ ":profile")
              (PyVal.dict d)
          , true )
      | _ => (store, false)
  | _ => (store, false)

/-- Embeds `store_user_name` (src/services/redis_service.py lines 201-239)
with the Redis client available: loads the profile, sets `name`, stamps
`metadata.last_seen`, writes back, then re-reads the key to verify the
write (in the store model the verification read always sees the value just
written and the name comparison always succeeds, so the function returns
`True` whenever the write happened); a missing or non-dict `metadata`
raises inside the `try` and the function returns `False` without
writing. -/
def store_user_name (store : Store) (phone : String) (name : PyVal)
    (now : String) : Store × Bool :=
  let phone_hash := hash_phone_number phone
  let key := "sven:user:" ++ phone_hash ++ ":profile"
  let profile := get_user_profile store phone now
  let profile := if pyTruthy profile then profile
                 else standard_user_profile phone_hash now
  match profile with
  | PyVal.dict d =>
      let d := dictSet d "name" name
      match dictGet d "metadata" with
      | some (PyVal.dict md) =>
          let d := dictSet d "metadata"
            (PyVal.dict (dictSet md "last_seen" (PyVal.str now)))
          let store₁ := storeSet store key (PyVal.dict d)
          match storeGet store₁ key with
          | Option.none => (store₁, false)
          | some verify_profile =>
              (store₁, pyEq ((pvGet verify_profile "name").getD PyVal.none) name)
      | _ => (store, false)
  | _ => (store, false)

/-- Key-disjointness fact used throughout: erasing one key leaves lookups
at another key unchanged. -/
theorem storeGet_storeDel_ne (s : Store) (k₁ k₂ : String) (h : k₁ ≠ k₂) :
    storeGet (storeDel s k₁) k₂ = storeGet s k₂ := by
  simp only [storeGet, storeDel]
  induction s with
  | nil => rfl
  | cons kv rest ih =>
      by_cases hk : kv.1 = k₁
      · have hk₂ : kv.1 ≠ k₂ := fun hc => h (hk ▸ hc)
        simp [List.filter_cons, hk, dictGet, hk₂, ih, h]
      · by_cases hk₂ : kv.1 = k₂ <;>
          simp [List.filter_cons, hk, dictGet, hk₂, ih, h, Ne.symm h]

/-- Erasing a key removes it from the store. -/
theorem storeGet_storeDel_self (s : Store) (k : String) :
    storeGet (storeDel s k) k = Option.none := by
  simp only [storeGet, storeDel]
  induction s with
  | nil => rfl
  | cons kv rest ih =>
      by_cases hk : kv.1 = k <;>
        simp [List.filter_cons, hk, dictGet, ih]

/-- Erasing the same key twice equals erasing it once. -/
theorem storeDel_storeDel_self (s : Store) (k : String) :
    storeDel (storeDel s k) k = storeDel s k := by
  simp [storeDel, List.filter_filter]

/-- Erasures of two keys commute. -/
theorem storeDel_comm (s : Store) (k₁ k₂ : String) :
    storeDel (storeDel s k₁) k₂ = storeDel (storeDel s k₂) k₁ := by
  simp only [storeDel, List.filter_filter]
  exact List.filter_congr (fun a _ => Bool.and_comm _ _)

/-- Two keys built with the prefixes `sven:user:` and `pending:` are never
equal, whatever the hash. -/
theorem profileKey_ne_pendingKey (h₁ h₂ : String) :
    ("sven:user:" ++ h₁ ++ ":profile") ≠ ("pending:" ++ h₂) := by
  intro hc
  have hdata := congrArg String.data hc
  simp [String.data_append] at hdata

/-- C8 confirmed — Erasure completeness and idempotence: after
`delete_user_data` for an identity, `get_user_profile` returns a freshly
synthesised default profile and `get_pending_event` returns nothing, even
if both records existed immediately before (the store `s` is arbitrary);
the call reports success, and repeating the erasure when nothing is left
to delete succeeds and leaves the store unchanged. -/
theorem delete_user_data_erases_and_is_idempotent (s : Store) (phone now : String) :
    get_user_profile (delete_user_data s phone).1 phone now
        = standard_user_profile (hash_phone_number phone) now
    ∧ get_pending_event (delete_user_data s phone).1 phone = Option.none
    ∧ (delete_user_data s phone).2 = true
    ∧ delete_user_data (delete_user_data s phone).1 phone
        = ((delete_user_data s phone).1, true) := by
  have hne : ("sven:user:" ++ hash_phone_number phone ++ ":profile")
      ≠ ("pending:" ++ hash_phone_number phone) :=
    profileKey_ne_pendingKey _ _
  refine ⟨?_, ?_, rfl, ?_⟩
  · simp only [delete_user_data, get_user_profile]
    rw [storeGet_storeDel_ne _ _ _ (Ne.symm hne), storeGet_storeDel_self]
  · simp only [delete_user_data, get_pending_event]
    rw [storeGet_storeDel_self]
  · show (storeDel (storeDel (storeDel (storeDel s
          ("sven:user:" ++ hash_phone_number phone ++ ":profile"))
          ("pending:" ++ hash_phone_number phone))
          ("sven:user:" ++ hash_phone_number phone ++ ":profile"))
          ("pending:" ++ hash_phone_number phone), true)
        = (storeDel (storeDel s ("sven:user:" ++ hash_phone_number phone ++ ":profile"))
            ("pending:" ++ hash_phone_number phone), true)
    rw [storeDel_comm (storeDel s _) ("pending:" ++ hash_phone_number phone)
        ("sven:user:" ++ hash_phone_number phone ++ ":profile"),
      storeDel_storeDel_self s, storeDel_storeDel_self]

/-- Lookup after item assignment at the same key. -/
theorem dictGet_dictSet_self (d : List (String × PyVal)) (k : String) (v : PyVal) :
    dictGet (dictSet d k v) k = some v := by
  induction d with
  | nil => simp [dictSet, dictGet]
  | cons kv rest ih =>
      by_cases hk : kv.1 = k <;> simp [dictSet, dictGet, hk, ih]

/-- Lookup after item assignment at a different key. -/
theorem dictGet_dictSet_ne (d : List (String × PyVal)) (k₁ k₂ : String) (v : PyVal)
    (h : k₁ ≠ k₂) : dictGet (dictSet d k₁ v) k₂ = dictGet d k₂ := by
  induction d with
  | nil => simp [dictSet, dictGet, h]
  | cons kv rest ih =>
      by_cases hk : kv.1 = k₁
      · simp [dictSet, dictGet, hk, h, ih]
      · by_cases hk₂ : kv.1 = k₂ <;>
          simp [dictSet, dictGet, hk, hk₂, ih, h, Ne.symm h]

/-- Keys absent from the update dict are untouched by `dict.update`. -/
theorem dictGet_dictUpdate_of_none (d u : List (String × PyVal)) (k : String)
    (h : dictGet u k = Option.none) : dictGet (dictUpdate d u) k = dictGet d k := by
  induction u generalizing d with
  | nil => rfl
  | cons kv rest ih =>
      simp only [dictGet] at h
      by_cases hk : kv.1 = k
      · simp [hk] at h
      · simp only [hk, if_false] at h
        show dictGet (dictUpdate (dictSet d kv.1 kv.2) rest) k = dictGet d k
        rw [ih _ h, dictGet_dictSet_ne _ _ _ _ hk]

/-- Embeds `UserManager.update_profile` (src/services/user_manager.py lines
21-37) with the Redis client available: loads the profile via
`get_user_profile`, merges the updates with `profile.update(updates)`
(raising `AttributeError` when the loaded value is not a dict — the
`Except.error` branch), routes `name` / `skylight_email` / `email` updates
through the redis_service helpers for compatibility, and finally writes the
merged profile to the key `user:<hash>:profile` — note the missing `sven:`
prefix relative to the `sven:user:<hash>:profile` key that
`get_user_profile` reads (source line 36 versus redis_service line 192). -/
def UserManager.update_profile (store : Store) (phone : String)
    (updates : List (String × PyVal)) (now : String) :
    Except String (Store × PyVal) :=
  match get_user_profile store phone now with
  | PyVal.dict d =>
      let profile := PyVal.dict (dictUpdate d updates)
      let store₁ := match dictGet updates "name" with
        | some nv => (store_user_name store phone nv now).1
        | Option.none => store
      let store₂ :=
        if (dictGet updates "skylight_email").isSome
            || (dictGet updates "email").isSome then
          let e₁ := (dictGet updates "skylight_email").getD PyVal.none
          let email := if pyTruthy e₁ then e₁
                       else (dictGet updates "email").getD PyVal.none
          (store_user_email store₁ phone email now).1
        else store₁
      Except.ok
        ( storeSet store₂ ("user:" ++ hash_phone_number phone ++ ":profile") profile
        , profile )
  | _ => Except.error "AttributeError: update"

/-- Embeds `UserManager.get_profile` (src/services/user_manager.py lines
18-19), which simply delegates to `get_user_profile`. -/
def UserManager.get_profile (store : Store) (phone now : String) : PyVal :=
  get_user_profile store phone now

/-- Embeds `UserContextService.update_user_interaction`
(src/services/user_context_service.py lines 88-100): calls
`UserManager.update_profile` with a fresh two-key `metadata` dict; the
surrounding `try`/`except` swallows any exception, leaving the store
unchanged in that case. -/
def update_user_interaction (store : Store) (phone message_type now : String) :
    Store :=
  match UserManager.update_profile store phone
      [("metadata", PyVal.dict
          [ ("last_seen", PyVal.str now)
          , ("last_message_type", PyVal.str message_type) ])] now with
  | Except.ok (s, _) => s
  | Except.error _ => store

/-- C1 code_bug — Round-trip of the profile store fails: saving
`{"onboarding_complete": true}` through `UserManager.update_profile` for a
fresh identity and then loading the identity through
`get_user_profile` yields a profile in which the saved field is absent,
because the update wrote the merged profile to `user:<hash>:profile`
while the load reads `sven:user:<hash>:profile`.  The merged profile does
carry the field and is stored — under the never-read key.  This is
exactly the scenario of the failing repository test
`tests/test_user_manager.py::test_onboarding_flow`. -/
theorem update_profile_roundtrip_loses_saved_field :
    ∃ s₁ p₁,
      UserManager.update_profile [] "+15551234567"
          [("onboarding_complete", PyVal.bool true)] "T0" = Except.ok (s₁, p₁)
      ∧ pvGet p₁ "onboarding_complete" = some (PyVal.bool true)
      ∧ dictGet s₁ ("user:" ++ hash_phone_number "+15551234567" ++ ":profile")
          = some p₁
      ∧ pvGet (UserManager.get_profile s₁ "+15551234567" "T1")
          "onboarding_complete" = Option.none := by
  exact ⟨_, _, rfl, rfl, rfl, rfl⟩

/-- C7 counterexample — `UserManager.update_profile` applied to a stored
profile whose metadata holds `message_count = 5` and
`last_seen = "2025-07-10T12:00:00"` leaves the produced profile's metadata
byte-for-byte unchanged: `message_count` stays 5 (the claim requires 6)
and `last_seen` keeps the old stamp even though the call happened at
`"2025-07-11T09:00:00"`. -/
theorem update_profile_does_not_stamp_or_count :
    ∃ s₁ p₁,
      UserManager.update_profile
          [ ( "sven:user:" ++ hash_phone_number "+15551234567" ++ ":profile"
            , PyVal.dict
                [ ("name", PyVal.str "Alice")
                , ("metadata", PyVal.dict
                    [ ("created", PyVal.str "2025-07-10T12:00:00")
                    , ("last_seen", PyVal.str "2025-07-10T12:00:00")
                    , ("onboarding_complete", PyVal.bool true)
                    , ("message_count", PyVal.int 5) ]) ] ) ]
          "+15551234567" [("onboarding_state", PyVal.str "FAMILY_INFO")]
          "2025-07-11T09:00:00" = Except.ok (s₁, p₁)
      ∧ pvGet p₁ "metadata" = some (PyVal.dict
            [ ("created", PyVal.str "2025-07-10T12:00:00")
            , ("last_seen", PyVal.str "2025-07-10T12:00:00")
            , ("onboarding_complete", PyVal.bool true)
            , ("message_count", PyVal.int 5) ])
      ∧ some (PyVal.int 5) ≠ some (PyVal.int (5 + 1)) := by
  refine ⟨_, _, rfl, rfl, ?_⟩
  intro h
  simp only [Option.some.injEq, PyVal.int.injEq] at h
  omega

/-- C7 amended — `UserManager.update_profile` merges the caller's updates
into the loaded profile and writes the result back without stamping
`last_seen` or incrementing `message_count`: whenever the updates do not
themselves contain a `metadata` key, the produced profile's metadata is
exactly the loaded profile's metadata (so `message_count` is left
unchanged — trivially non-decreasing, but never grown by the store). -/
theorem update_profile_metadata_unchanged (store : Store) (phone now : String)
    (updates : List (String × PyVal)) (d : List (String × PyVal))
    (hd : get_user_profile store phone now = PyVal.dict d)
    (hm : dictGet updates "metadata" = Option.none) :
    ∃ s₁,
      UserManager.update_profile store phone updates now
        = Except.ok (s₁, PyVal.dict (dictUpdate d updates))
      ∧ dictGet (dictUpdate d updates) "metadata" = dictGet d "metadata" := by
  unfold UserManager.update_profile
  rw [hd]
  exact ⟨_, rfl, dictGet_dictUpdate_of_none _ _ _ hm⟩

/-- Witness for the amended C7 theorem at a concrete input: the empty
store, identity `+15551234567`, an `onboarding_state` update. -/
theorem update_profile_metadata_unchanged_witness :
    ∃ s₁,
      UserManager.update_profile [] "+15551234567"
          [("onboarding_state", PyVal.str "FAMILY_INFO")] "T0"
        = Except.ok (s₁, PyVal.dict (dictUpdate
            [ ("phone_hash", PyVal.str (hash_phone_number "+15551234567"))
            , ("name", PyVal.none)
            , ("email", PyVal.none)
            , ("children", PyVal.list [])
            , ("settings", PyVal.dict
                [ ("privacy_notices", PyVal.bool false)
                , ("preferred_language", PyVal.str "en")
                , ("timezone", PyVal.str "UTC") ])
            , ("metadata", PyVal.dict
                [ ("created", PyVal.str "T0")
                , ("last_seen", PyVal.str "T0")
                , ("onboarding_complete", PyVal.bool false)
                , ("message_count", PyVal.int 0) ]) ]
            [("onboarding_state", PyVal.str "FAMILY_INFO")]))
      ∧ dictGet (dictUpdate
            [ ("phone_hash", PyVal.str (hash_phone_number "+15551234567"))
            , ("name", PyVal.none)
            , ("email", PyVal.none)
            , ("children", PyVal.list [])
            , ("settings", PyVal.dict
                [ ("privacy_notices", PyVal.bool false)
                , ("preferred_language", PyVal.str "en")
                , ("timezone", PyVal.str "UTC") ])
            , ("metadata", PyVal.dict
                [ ("created", PyVal.str "T0")
                , ("last_seen", PyVal.str "T0")
                , ("onboarding_complete", PyVal.bool false)
                , ("message_count", PyVal.int 0) ]) ]
            [("onboarding_state", PyVal.str "FAMILY_INFO")]) "metadata"
          = dictGet
            [ ("phone_hash", PyVal.str (hash_phone_number "+15551234567"))
            , ("name", PyVal.none)
            , ("email", PyVal.none)
            , ("children", PyVal.list [])
            , ("settings", PyVal.dict
                [ ("privacy_notices", PyVal.bool false)
                , ("preferred_language", PyVal.str "en")
                , ("timezone", PyVal.str "UTC") ])
            , ("metadata", PyVal.dict
                [ ("created", PyVal.str "T0")
                , ("last_seen", PyVal.str "T0")
                , ("onboarding_complete", PyVal.bool false)
                , ("message_count", PyVal.int 0) ]) ] "metadata" :=
  update_profile_metadata_unchanged [] "+15551234567" "T0"
    [("onboarding_state", PyVal.str "FAMILY_INFO")] _ rfl rfl

/-- C10 confirmed — Frame effect of interaction tracking: after
`UserContextService.update_user_interaction`, the profile written back
(to `user:<hash>:profile`) is the loaded profile with its whole `metadata`
map replaced by the two-key dict `{last_seen, last_message_type}` —
`dict.update` overwrites the `metadata` value wholesale, so `created`,
`message_count` and `onboarding_complete` are absent from the metadata of
the profile it produces. -/
theorem update_user_interaction_replaces_metadata_wholesale (store : Store)
    (phone message_type now : String) (d : List (String × PyVal))
    (hd : get_user_profile store phone now = PyVal.dict d) :
    dictGet (update_user_interaction store phone message_type now)
        ("user:" ++ hash_phone_number phone ++ ":profile")
      = some (PyVal.dict (dictSet d "metadata" (PyVal.dict
          [ ("last_seen", PyVal.str now)
          , ("last_message_type", PyVal.str message_type) ])))
    ∧ pvGet (PyVal.dict (dictSet d "metadata" (PyVal.dict
          [ ("last_seen", PyVal.str now)
          , ("last_message_type", PyVal.str message_type) ]))) "metadata"
      = some (PyVal.dict
          [ ("last_seen", PyVal.str now)
          , ("last_message_type", PyVal.str message_type) ]) := by
  constructor
  · unfold update_user_interaction UserManager.update_profile
    rw [hd]
    exact dictGet_dictSet_self _ _ _
  · exact dictGet_dictSet_self _ _ _

/-- Witness for the C10 theorem at a concrete input: the empty store and
identity `+15551234567` (the loaded profile is the synthesised default). -/
theorem update_user_interaction_replaces_metadata_wholesale_witness :
    dictGet (update_user_interaction [] "+15551234567" "sms" "T0")
        ("user:" ++ hash_phone_number "+15551234567" ++ ":profile")
      = some (PyVal.dict (dictSet
          [ ("phone_hash", PyVal.str (hash_phone_number "+15551234567"))
          , ("name", PyVal.none)
          , ("email", PyVal.none)
          , ("children", PyVal.list [])
          , ("settings", PyVal.dict
              [ ("privacy_notices", PyVal.bool false)
              , ("preferred_language", PyVal.str "en")
              , ("timezone", PyVal.str "UTC") ])
          , ("metadata", PyVal.dict
              [ ("created", PyVal.str "T0")
              , ("last_seen", PyVal.str "T0")
              , ("onboarding_complete", PyVal.bool false)
              , ("message_count", PyVal.int 0) ]) ]
          "metadata" (PyVal.dict
            [ ("last_seen", PyVal.str "T0")
            , ("last_message_type", PyVal.str "sms") ])))
    ∧ pvGet (PyVal.dict (dictSet
          [ ("phone_hash", PyVal.str (hash_phone_number "+15551234567"))
          , ("name", PyVal.none)
          , ("email", PyVal.none)
          , ("children", PyVal.list [])
          , ("settings", PyVal.dict
              [ ("privacy_notices", PyVal.bool false)
              , ("preferred_language", PyVal.str "en")
              , ("timezone", PyVal.str "UTC") ])
          , ("metadata", PyVal.dict
              [ ("created", PyVal.str "T0")
              , ("last_seen", PyVal.str "T0")
              , ("onboarding_complete", PyVal.bool false)
              , ("message_count", PyVal.int 0) ]) ]
          "metadata" (PyVal.dict
            [ ("last_seen", PyVal.str "T0")
            , ("last_message_type", PyVal.str "sms") ]))) "metadata"
      = some (PyVal.dict
          [ ("last_seen", PyVal.str "T0")
          , ("last_message_type", PyVal.str "sms") ]) :=
  update_user_interaction_replaces_metadata_wholesale [] "+15551234567" "sms" "T0"
    _ rfl

/-- Per-identity state of `AntiAbuseLimiter` (src/utils/rate_limiting.py
lines 5-13): the class keeps four per-phone structures; this record holds
the slices for one phone.  Timestamps (`time.time()` floats) are modeled
as integers — the limiter only compares timestamps and adds whole-second
constants (60, 300, 600), so integer seconds carry the full behaviour;
deques are lists with the oldest element first. -/
structure LimiterState where
  msg_minute : List ℤ
  fail_minute : List ℤ
  banned : ℤ
  identical_msgs : List String

/-- Fresh per-phone state: the `defaultdict` defaults — empty deques and a
ban expiry of `0.0`. -/
def LimiterState.initial : LimiterState :=
  { msg_minute := [], fail_minute := [], banned := 0, identical_msgs := [] }

/-- Appending to a `collections.deque(maxlen := n)`: the new element goes
on the right and the oldest elements are dropped from the left once the
length exceeds `n`. -/
def dequeAppend {α : Type} (n : Nat) (xs : List α) (x : α) : List α :=
  let ys := xs ++ [x]
  if n < ys.length then ys.drop (ys.length - n) else ys

/-- Rebuilding a `deque(iterable, maxlen := n)` from a list: keeps the last
`n` elements. -/
def dequeOfList {α : Type} (n : Nat) (xs : List α) : List α :=
  if n < xs.length then xs.drop (xs.length - n) else xs

/-- Result length of a capped deque rebuild never exceeds the cap. -/
theorem length_dequeOfList_le {α : Type} (n : Nat) (xs : List α) :
    (dequeOfList n xs).length ≤ n := by
  unfold dequeOfList
  split
  · simp only [List.length_drop]
    omega
  · omega

/-- The development/test whitelist (src/utils/rate_limiting.py lines
11-13). -/
def whitelist : List String := ["+16178171635"]

/-- Result of one `AntiAbuseLimiter.allow` call: the returned
`(allowed, wait_seconds)` pair plus the per-phone state after the call. -/
structure AllowResult where
  allowed : Bool
  wait : ℤ
  state : LimiterState

/-- Embeds the tail of `AntiAbuseLimiter.allow` after the duplicate-streak
block (src/utils/rate_limiting.py lines 35-42): both time windows are
pruned to entries younger than 60 seconds (rebuilt as capped deques), and
if either window exceeds its cap a 300-second ban is set; otherwise the
message is allowed. -/
def allowTail (st : LimiterState) (now : ℤ) (msg₁ fail₁ : List ℤ)
    (ident₁ : List String) : AllowResult :=
  let msg₂ := dequeOfList 10 (msg₁.filter (fun t => decide (now - t < 60)))
  let fail₂ := dequeOfList 5 (fail₁.filter (fun t => decide (now - t < 60)))
  if 10 < msg₂.length || 5 < fail₂.length then
    { allowed := false, wait := 300
    , state := { msg_minute := msg₂, fail_minute := fail₂
               , banned := now + 300, identical_msgs := ident₁ } }
  else
    { allowed := true, wait := 0
    , state := { msg_minute := msg₂, fail_minute := fail₂
               , banned := st.banned, identical_msgs := ident₁ } }

/-- Embeds the duplicate-message block of `AntiAbuseLimiter.allow`
(src/utils/rate_limiting.py lines 26-34): the message is appended to the
`identical_msgs` deque in both branches; when the previous recorded
message equals the new one and the deque has reached 5 entries after the
append, a 600-second ban is set and the call rejects; otherwise control
falls through to the window pruning of `allowTail`. -/
def allowDupCheck (st : LimiterState) (now : ℤ) (msg₁ fail₁ : List ℤ)
    (message : String) : AllowResult :=
  if !st.identical_msgs.isEmpty
      && (st.identical_msgs.getLast? == some message) then
    if 5 ≤ (dequeAppend 5 st.identical_msgs message).length then
      { allowed := false, wait := 600
      , state := { msg_minute := msg₁, fail_minute := fail₁
                 , banned := now + 600
                 , identical_msgs := dequeAppend 5 st.identical_msgs message } }
    else allowTail st now msg₁ fail₁ (dequeAppend 5 st.identical_msgs message)
  else allowTail st now msg₁ fail₁ (dequeAppend 5 st.identical_msgs message)

/-- Embeds `AntiAbuseLimiter.allow` (src/utils/rate_limiting.py lines
15-42) for one phone: whitelist bypass; active-ban rejection with the
remaining seconds (`int()` truncation is the identity on the integer
model); append the timestamp to the message window (and to the failure
window when `success = False`); then the duplicate-message block and the
window checks. -/
def AntiAbuseLimiter.allow (st : LimiterState) (phone message : String)
    (now : ℤ) (success : Bool) : AllowResult :=
  if phone ∈ whitelist then { allowed := true, wait := 0, state := st }
  else if now < st.banned then
    { allowed := false, wait := st.banned - now, state := st }
  else
    allowDupCheck st now (dequeAppend 10 st.msg_minute now)
      (if success then st.fail_minute else dequeAppend 5 st.fail_minute now)
      message

/-- Folds a sequence of `(message, timestamp)` events through the limiter
for one phone (all with `success = True`, as the webhook calls it) and
returns the result of the final call. -/
def runAllow (st : LimiterState) (phone : String)
    (events : List (String × ℤ)) : AllowResult :=
  events.foldl
    (fun r ev => AntiAbuseLimiter.allow r.state phone ev.1 ev.2 true)
    { allowed := true, wait := 0, state := st }

/-- Window-cap check is dead code: both windows are rebuilt as deques with
`maxlen` 10 and 5, so their lengths can never exceed 10 and 5 and the
`len > cap` comparison of line 38 is always false — `allowTail` always
allows. -/
theorem allowTail_always_allows (st : LimiterState) (now : ℤ)
    (msg₁ fail₁ : List ℤ) (ident₁ : List String) :
    (allowTail st now msg₁ fail₁ ident₁).allowed = true
    ∧ (allowTail st now msg₁ fail₁ ident₁).wait = 0
    ∧ (allowTail st now msg₁ fail₁ ident₁).state.banned = st.banned := by
  unfold allowTail
  have h₁ : ¬ 10 <
      (dequeOfList 10 (msg₁.filter (fun t => decide (now - t < 60)))).length :=
    Nat.not_lt.mpr (length_dequeOfList_le _ _)
  have h₂ : ¬ 5 <
      (dequeOfList 5 (fail₁.filter (fun t => decide (now - t < 60)))).length :=
    Nat.not_lt.mpr (length_dequeOfList_le _ _)
  simp [h₁, h₂]

set_option maxRecDepth 100000 in
/-- C2 code_bug — Sliding-window rate limit never rejects on volume: an
identity not on the allow-list sends 11 distinct messages within 60
seconds (timestamps 0..10) and the 11th is still allowed with wait 0,
because the message window is a deque with `maxlen = 10` whose length can
never exceed 10, making the `len > 10` cap comparison unsatisfiable (see
`allowTail_always_allows`).  A 12th message 61 seconds after the first is
also allowed — vacuously matching the recovery half of the claim, since no
message is ever rejected on volume. -/
theorem rate_limiter_allows_eleventh_message :
    (runAllow LimiterState.initial "+15557654321"
        [ ("msg01", 0), ("msg02", 1), ("msg03", 2), ("msg04", 3), ("msg05", 4)
        , ("msg06", 5), ("msg07", 6), ("msg08", 7), ("msg09", 8), ("msg10", 9)
        , ("msg11", 10) ]).allowed = true
    ∧ (runAllow LimiterState.initial "+15557654321"
        [ ("msg01", 0), ("msg02", 1), ("msg03", 2), ("msg04", 3), ("msg05", 4)
        , ("msg06", 5), ("msg07", 6), ("msg08", 7), ("msg09", 8), ("msg10", 9)
        , ("msg11", 10) ]).wait = 0
    ∧ (runAllow LimiterState.initial "+15557654321"
        [ ("msg01", 0), ("msg02", 1), ("msg03", 2), ("msg04", 3), ("msg05", 4)
        , ("msg06", 5), ("msg07", 6), ("msg08", 7), ("msg09", 8), ("msg10", 9)
        , ("msg11", 10), ("msg12", 61) ]).allowed = true := by
  refine ⟨?_, ?_, ?_⟩ <;> decide

set_option maxRecDepth 100000 in
/-- C9 counterexample — the 600-second duplicate ban fires without five
identical consecutive messages: after the five distinct messages a, b, c,
d, e, a single repetition of e (the sixth message) is banned for 600
seconds, because the `identical_msgs` deque records every message (not a
streak) and the ban condition only requires the new message to equal the
previous one while the deque holds 5 entries. -/
theorem limiter_bans_duplicate_pair_after_five_messages :
    (runAllow LimiterState.initial "+15557654321"
        [("a", 0), ("b", 1), ("c", 2), ("d", 3), ("e", 4), ("e", 5)]).allowed
      = false
    ∧ (runAllow LimiterState.initial "+15557654321"
        [("a", 0), ("b", 1), ("c", 2), ("d", 3), ("e", 4), ("e", 5)]).wait = 600
    ∧ (runAllow LimiterState.initial "+15557654321"
        [("a", 0), ("b", 1), ("c", 2), ("d", 3), ("e", 4), ("e", 5)]).state.banned
      = 5 + 600 := by
  refine ⟨?_, ?_, ?_⟩ <;> decide

/-- Helper: characterisation of the 600-second ban at the level of the
duplicate-check block, for any window contents. -/
theorem allowDupCheck_banned_iff (st : LimiterState) (now : ℤ)
    (msg₁ fail₁ : List ℤ) (msg : String) (hne : st.banned ≠ now + 600) :
    (allowDupCheck st now msg₁ fail₁ msg).state.banned = now + 600
    ↔ (st.identical_msgs ≠ []
        ∧ st.identical_msgs.getLast? = some msg
        ∧ 5 ≤ (dequeAppend 5 st.identical_msgs msg).length) := by
  unfold allowDupCheck
  split_ifs with hdup hlen
  · simp only [Bool.and_eq_true, Bool.not_eq_eq_eq_not, Bool.not_false,
      beq_iff_eq] at hdup
    have hemp : st.identical_msgs ≠ [] := by
      intro h
      rw [h] at hdup
      simp at hdup
    exact iff_of_true rfl ⟨hemp, hdup.2, hlen⟩
  · rw [(allowTail_always_allows st now _ _ _).2.2]
    exact iff_of_false hne (fun h => hlen h.2.2)
  · rw [(allowTail_always_allows st now _ _ _).2.2]
    refine iff_of_false hne (fun h => ?_)
    rcases h with ⟨hemp, hlast, _⟩
    apply hdup
    simp [hlast, hemp]

/-- C9 amended — exact characterisation of the 600-second duplicate ban:
for an identity not on the allow-list and not currently banned, one
`allow` call sets `banned = now + 600` if and only if the new message
equals the immediately preceding recorded message and the per-identity
message buffer (a `maxlen = 5` deque that records every message, whether
or not it repeats) holds 5 entries after the append.  Five identical
consecutive messages from a fresh state reach this at the fifth message,
but any duplicate pair preceded by four recorded messages reaches it
too — the cap applies to the buffer length, not to an identical-message
streak. -/
theorem allow_sets_dup_ban_iff (st : LimiterState) (phone msg : String)
    (now : ℤ) (succ : Bool) (hw : phone ∉ whitelist)
    (hb : ¬ now < st.banned) :
    (AntiAbuseLimiter.allow st phone msg now succ).state.banned = now + 600
    ↔ (st.identical_msgs ≠ []
        ∧ st.identical_msgs.getLast? = some msg
        ∧ 5 ≤ (dequeAppend 5 st.identical_msgs msg).length) := by
  have hb' : st.banned ≤ now := not_lt.mp hb
  have hne : st.banned ≠ now + 600 := by
    intro h
    rw [h] at hb'
    linarith
  unfold AntiAbuseLimiter.allow
  rw [if_neg hw, if_neg hb]
  exact allowDupCheck_banned_iff st now _ _ msg hne

/-- Witness for the amended C9 theorem at a concrete input: a buffer of
four distinct messages followed by a repetition of the last one. -/
theorem allow_sets_dup_ban_iff_witness :
    ("+15557654321" ∉ whitelist)
    ∧ ¬ (6 : ℤ) < ({ msg_minute := [0, 1, 2, 3], fail_minute := []
                   , banned := 0, identical_msgs := ["a", "b", "c", "d"]
                   : LimiterState }).banned
    ∧ ((AntiAbuseLimiter.allow
          { msg_minute := [0, 1, 2, 3], fail_minute := []
          , banned := 0, identical_msgs := ["a", "b", "c", "d"] }
          "+15557654321" "d" 6 true).state.banned = 6 + 600
        ↔ ((["a", "b", "c", "d"] : List String) ≠ []
            ∧ (["a", "b", "c", "d"] : List String).getLast? = some "d"
            ∧ 5 ≤ (dequeAppend 5 ["a", "b", "c", "d"] "d").length)) :=
  ⟨by decide, by norm_num,
    allow_sets_dup_ban_iff _ "+15557654321" "d" 6 true (by decide) (by norm_num)⟩

/-- Single DP row of difflib's `find_longest_match`: entry `j` of the new
row is the length of the common run ending at the current character of `a`
and position `j` of `b` (`j2len[j] = j2len_prev[j-1] + 1` on a character
match, else 0). -/
def smNewRow (c : Char) (ys : List Char) (prev : List Nat) : List Nat :=
  List.zipWith (fun y p => if c == y then p + 1 else 0) ys (0 :: prev)

/-- Scan one DP row, updating the best block exactly as difflib does:
strictly longer blocks win, so the earliest maximal block (row-major
order) is kept; `(i + 1 - k, j + 1 - k, k)` is difflib's
`(i - k + 1, j - k + 1, k)` in ℕ. -/
def smScanRow (i : Nat) : Nat → List Nat → Nat × Nat × Nat → Nat × Nat × Nat
  | _, [], best => best
  | j, k :: ks, best =>
      smScanRow i (j + 1) ks
        (if best.2.2 < k then (i + 1 - k, j + 1 - k, k) else best)

/-- Row-by-row driver for `find_longest_match`. -/
def smFindAux (ys : List Char) : Nat → List Char → List Nat →
    Nat × Nat × Nat → Nat × Nat × Nat
  | _, [], _, best => best
  | i, c :: cs, prev, best =>
      let row := smNewRow c ys prev
      smFindAux ys (i + 1) cs row (smScanRow i 0 row best)

/-- Embeds `difflib.SequenceMatcher.find_longest_match` with no junk (the
matcher is constructed with `isjunk = None` and every compared string is
far below the 200-character autojunk threshold): returns `(i, j, k)`, the
earliest maximal matching block `a[i:i+k] == b[j:j+k]`.  The junk-driven
extension loops of the CPython implementation are no-ops without junk
because the DP already records maximal runs. -/
def find_longest_match (xs ys : List Char) : Nat × Nat × Nat :=
  smFindAux ys 0 xs (List.replicate ys.length 0) (0, 0, 0)

/-- Fuel-indexed total sum of matching-block sizes, following
`get_matching_blocks`: take the longest block, recurse on the pieces to
its left and to its right.  Each recursive call strictly shortens the
first list (the block has `k ≥ 1`, `i + k ≤ xs.length`), so fuel
`xs.length + 1` never runs out and the fuel elimination case is
unreachable. -/
def matchingSizeFuel : Nat → List Char → List Char → Nat
  | 0, _, _ => 0
  | fuel + 1, xs, ys =>
      match find_longest_match xs ys with
      | (i, j, k) =>
          if k = 0 then 0
          else k + matchingSizeFuel fuel (xs.take i) (ys.take j)
                 + matchingSizeFuel fuel (xs.drop (i + k)) (ys.drop (j + k))

/-- Total number `M` of matching characters across all matching blocks of
`difflib.SequenceMatcher(None, a, b)`. -/
def matchingSize (xs ys : List Char) : Nat :=
  matchingSizeFuel (xs.length + 1) xs ys

/-- Embeds `SequenceMatcher.ratio()` as an exact fraction
`(2 * M, len(a) + len(b))` instead of the CPython float `2.0 * M / T`
(ratio is 1.0 when both strings are empty).  All score comparisons below
are performed by exact cross-multiplication; for the short strings in the
command table the distance between distinct attainable ratios is far above
double-precision rounding error, so the exact comparison agrees with the
float comparison of the source. -/
def ratioPair (xs ys : List Char) : Nat × Nat :=
  let t := xs.length + ys.length
  if t = 0 then (1, 1) else (2 * matchingSize xs ys, t)

/-- Python `str.strip()` (whitespace from both ends). -/
def pyStrip (s : String) : String :=
  String.mk
    (((s.data.dropWhile Char.isWhitespace).reverse.dropWhile
        Char.isWhitespace).reverse)

/-- Python `str.lower()`; ASCII-exact, and every string in the command
table and in the verified inputs is ASCII or a symbol unaffected by
lowercasing. -/
def pyLower (s : String) : String := String.mk (s.data.map Char.toLower)

/-- Python `str.capitalize()`: first character uppercased, the rest
lowercased. -/
def pyCapitalize (s : String) : String :=
  match s.data with
  | [] => ""
  | c :: rest => String.mk (c.toUpper :: rest.map Char.toLower)

/-- Embeds `CommandMatcher.command_variations`
(src/utils/command_matcher.py lines 6-22), in declaration order — CPython
dicts iterate in insertion order, so this order decides ties under the
strict-improvement scan of `match`. -/
def command_variations : List (String × List String) :=
  [ ("menu", ["menu", "memu", "menus", "men", "mneu", "mnu", "📅",
      "main menu", "back to menu", "back"])
  , ("help", ["help", "hlep", "halp", "hep", "assist", "support", "?",
      "info", "information"])
  , ("settings", ["settings", "setting", "setings", "seting", "⚙️",
      "configure", "config", "preferences", "prefs", "set up", "setup",
      "setpu", "setp", "set-up"])
  , ("back", ["back", "bak", "bck", "return", "go back", "previous"])
  , ("yes", ["yes", "y", "ye", "yse", "ys", "👍", "ok", "okay",
      "affirmative", "yep", "correct", "right", "sure", "yah", "ya", "yup",
      "of course", "alright", "all right", "confirm", "done", "go"])
  , ("confirm", ["confirm", "cnofirm", "confrim", "👍", "ok", "accept",
      "done", "correct", "right"])
  , ("no", ["no", "n", "nope", "nah", "❌", "cancel", "not", "wrong",
      "stop", "abort", "never", "no way", "incorrect", "remove", "clear",
      "reset"])
  , ("cancel", ["cancel", "canel", "cnacel", "❌", "stop", "abort", "no",
      "remove", "clear", "reset"])
  , ("wrong", ["wrong", "not right", "incorrect", "nope", "❌"])
  , ("setup", ["setup", "set up", "setpu", "configure", "config", "set-up",
      "settings", "⚙️"])
  , ("delete", ["delete", "remove", "clear", "reset", "erase",
      "start over", "wipe"]) ]

/-- Embeds `CommandMatcher.emoji_map` (src/utils/command_matcher.py lines
23-28). -/
def emoji_map : List (String × String) :=
  [("👍", "yes"), ("❌", "no"), ("📅", "menu"), ("⚙️", "settings")]

/-- Dictionary key lookup for the emoji map. -/
def lookupStr (m : List (String × String)) (k : String) : Option String :=
  match m with
  | [] => Option.none
  | (k₁, v) :: rest => if k₁ = k then some v else lookupStr rest k

/-- Embeds `CommandMatchResult`: the confidence float is carried as the
exact fraction `confidenceNum / confidenceDen`. -/
structure MatchResult where
  original_input : String
  command : Option String
  confidenceNum : Nat
  confidenceDen : Nat
  correction : Option String
deriving DecidableEq

/-- One step of the double loop of `CommandMatcher.match` (lines 48-54):
the candidate replaces the best so far only on a strictly greater score
(exact comparison by cross-multiplication).  State:
`(best_command, best_variant, best_num, best_den)`. -/
def considerVariant (input : List Char) (command variant : String)
    (best : Option String × String × Nat × Nat) :
    Option String × String × Nat × Nat :=
  let r := ratioPair input variant.data
  if r.1 * best.2.2.2 > best.2.2.1 * r.2 then (some command, variant, r.1, r.2)
  else best

/-- The full double loop over `command_variations`, starting from
`best_command = None`, `best_score = 0.0`. -/
def bestMatch (input : List Char) : Option String × String × Nat × Nat :=
  command_variations.foldl
    (fun b cv => cv.2.foldl (fun b v => considerVariant input cv.1 v b) b)
    (Option.none, "", 0, 1)

/-- Embeds `CommandMatcher.match` (src/utils/command_matcher.py lines
33-71); named `matchCmd` because `match` is reserved in Lean.  Normalise
(strip + lower), resolve emoji shortcuts at confidence 1.0, otherwise take
the best-scoring `(command, variant)` pair and accept it when the score
exceeds 0.72 (`100 * num > 72 * den`; no attainable score of the table
lies between the rational 0.72 and its nearest double, so the exact test
matches the float test of line 56); the correction string is populated
only when the normalised input differs from the best-matching variant. -/
def CommandMatcher.matchCmd (user_input : String) : MatchResult :=
  let norm := pyLower (pyStrip user_input)
  match lookupStr emoji_map norm with
  | some cmd =>
      { original_input := user_input, command := some cmd
      , confidenceNum := 1, confidenceDen := 1
      , correction :=
          some ("I think you meant \x27" ++ pyCapitalize cmd ++ "\x27!") }
  | Option.none =>
      let b := bestMatch norm.data
      if 100 * b.2.2.1 > 72 * b.2.2.2 then
        { original_input := user_input, command := b.1
        , confidenceNum := b.2.2.1, confidenceDen := b.2.2.2
        , correction :=
            if norm = b.2.1 then Option.none
            else some ("I think you meant \x27"
              ++ pyCapitalize (b.1.getD "") ++ "\x27!") }
      else
        { original_input := user_input, command := Option.none
        , confidenceNum := b.2.2.1, confidenceDen := b.2.2.2
        , correction := some "No close command match found." }

set_option maxRecDepth 100000 in
/-- C5 counterexample — `match("memu")` yields the intended command `menu`
but its correction is `None`, not the non-empty string the claim
requires: "memu" is itself a listed variant of `menu`, so it scores 1.0
with `best_variant = "memu"` and the `user_input != best_variant` guard of
line 58 leaves `correction` unset. -/
theorem matchCmd_memu_correction_is_none :
    (CommandMatcher.matchCmd "memu").command = some "menu"
    ∧ (CommandMatcher.matchCmd "memu").correction = Option.none := by
  refine ⟨?_, ?_⟩ <;> decide

set_option maxRecDepth 100000 in
/-- C5 amended — documented known typos that appear as listed variants
("memu", "halp") match the intended canonical command at confidence 1.0
with `correction = None`; a correction is populated only for inputs that
are not listed variants, e.g. "menue" matches `menu` at 8/9 with the
correction string the spec quotes. -/
theorem matchCmd_known_typos :
    CommandMatcher.matchCmd "memu"
      = { original_input := "memu", command := some "menu"
        , confidenceNum := 8, confidenceDen := 8, correction := Option.none }
    ∧ CommandMatcher.matchCmd "halp"
      = { original_input := "halp", command := some "help"
        , confidenceNum := 8, confidenceDen := 8, correction := Option.none }
    ∧ CommandMatcher.matchCmd "menue"
      = { original_input := "menue", command := some "menu"
        , confidenceNum := 8, confidenceDen := 9
        , correction := some "I think you meant \x27Menu\x27!" } := by
  refine ⟨?_, ?_, ?_⟩ <;> decide

set_option maxRecDepth 100000 in
/-- C6 counterexample — the exact canonical phrase "back" does not return
the command `back`: the `menu` variant list also contains "back" and
`menu` is declared first, so the strict-improvement scan settles on `menu`
at confidence 1.0 before the `back` command is ever reached. -/
theorem matchCmd_back_returns_menu :
    (CommandMatcher.matchCmd "back").command = some "menu"
    ∧ (CommandMatcher.matchCmd "back").command ≠ some "back" := by
  refine ⟨?_, ?_⟩ <;> decide

set_option maxRecDepth 100000 in
/-- C6 amended — an exact canonical phrase scores 1.0 and the winner is
the FIRST command in the declaration order of `command_variations` that
lists the phrase as a variant: "menu" and "help" return themselves, but
"back" returns `menu` and "setup" returns `settings` (both phrases appear
earlier as variants of those commands).  Ties at the maximum score are
thus broken by dict declaration order via the strict `>` comparison, not
by a dedicated priority list. -/
theorem matchCmd_exact_phrase_first_declared_wins :
    CommandMatcher.matchCmd "menu"
      = { original_input := "menu", command := some "menu"
        , confidenceNum := 8, confidenceDen := 8, correction := Option.none }
    ∧ CommandMatcher.matchCmd "help"
      = { original_input := "help", command := some "help"
        , confidenceNum := 8, confidenceDen := 8, correction := Option.none }
    ∧ CommandMatcher.matchCmd "back"
      = { original_input := "back", command := some "menu"
        , confidenceNum := 8, confidenceDen := 8, correction := Option.none }
    ∧ CommandMatcher.matchCmd "setup"
      = { original_input := "setup", command := some "settings"
        , confidenceNum := 10, confidenceDen := 10
        , correction := Option.none } := by
  refine ⟨?_, ?_, ?_, ?_⟩ <;> decide

/-- Attribute surface of the class `EnhancedUserProfileManager`
(src/services/enhanced_user_profile_manager.py lines 9-125): the methods
the class actually defines, in source order.  The class has no base class
other than `object` and defines no `__getattr__`, so Python attribute
lookup on an instance succeeds exactly for these names (plus the instance
fields set in `__init__`: `redis_client`, `correlation_id`,
`profile_ttl`). -/
def enhancedUserProfileManagerMethods : List String :=
  [ "get_user_profile", "save_user_profile", "add_child_to_profile"
  , "extract_name_from_message", "mark_onboarding_complete"
  , "get_days_since_last_seen", "update_last_seen"
  , "generate_personalized_greeting", "set_name", "set_setting"
  , "get_setting", "set_privacy_notice_ack", "get_privacy_notice_ack" ]

/-- The method `OnboardingManager.advance_onboarding_state` starts with a
call that cannot resolve. -/
theorem no_get_profile_method :
    "get_profile" ∉ enhancedUserProfileManagerMethods := by decide

/-- Embeds `OnboardingManager.advance_onboarding_state`
(src/services/onboarding_manager.py lines 23-36).  Its first statement,
`profile = self.profile_manager.get_profile(phone)`, performs a Python
attribute lookup of "get_profile" on `self.profile_manager`, an
`EnhancedUserProfileManager` (line 17); the embedding models Python
attribute resolution against `enhancedUserProfileManagerMethods`.  A name
outside that list raises `AttributeError` before any later statement of
the method body runs, so no later statement is modeled: the first branch
is provably dead (`no_get_profile_method`).  (`update_profile`, called on
lines 28, 32 and 35, is likewise not an attribute of the class.) -/
def advance_onboarding_state (store : Store) (phone : String)
    (collected_data : List (String × PyVal)) : Except String (Store × String) :=
  if "get_profile" ∈ enhancedUserProfileManagerMethods then
    Except.error "unreachable: see no_get_profile_method"
  else
    Except.error
      "AttributeError: EnhancedUserProfileManager object has no attribute get_profile"

/-- C4 code_bug — the onboarding advance operation never returns: for
every store, identity and collected-data dict — in particular for a
profile that already has `onboarding_complete = true` — calling
`OnboardingManager.advance_onboarding_state` raises `AttributeError`
instead of being a no-op that returns the profile unchanged, because it
invokes `self.profile_manager.get_profile` (and later `update_profile`)
on an `EnhancedUserProfileManager`, which defines `get_user_profile` /
`save_user_profile` but neither of the called names. -/
theorem advance_onboarding_state_always_raises (store : Store) (phone : String)
    (collected_data : List (String × PyVal)) :
    advance_onboarding_state store phone collected_data
      = Except.error
        "AttributeError: EnhancedUserProfileManager object has no attribute get_profile" := by
  rfl

/-- Embeds `normalize_phone` (src/utils/security.py lines 7-9): keep only
digits. -/
def normalize_phone (phone : String) : String :=
  String.mk (phone.data.filter Char.isDigit)

/-- Embeds `validate_phone` (src/utils/security.py lines 11-13): the
digits-only normalisation must match `^1?\d{10}$`, i.e. have length 10, or
length 11 with a leading 1. -/
def validate_phone (phone : String) : Bool :=
  let norm := (normalize_phone phone).data
  norm.length == 10 || (norm.length == 11 && norm.headD ' ' == '1')

/-- First helper for the `<.*?>` tag stripper: consume up to and including
the first `>`, failing at a newline or the end of input (`.` does not
match newlines and the regex is non-greedy). -/
def findTagClose : List Char → Option (List Char)
  | [] => Option.none
  | c :: rest =>
      if c = '>' then some rest
      else if c = '\n' then Option.none
      else findTagClose rest

/-- Fuel-indexed `re.sub(r"<.*?>", "", s)`: every `<` that has a `>` later
on the same line is removed together with the span between them; an
unclosed `<` stays.  Each step consumes at least one character, so fuel
equal to the input length never runs out. -/
def removeTagsFuel : Nat → List Char → List Char
  | 0, cs => cs
  | _ + 1, [] => []
  | fuel + 1, c :: rest =>
      if c = '<' then
        match findTagClose rest with
        | some rest₁ => removeTagsFuel fuel rest₁
        | Option.none => c :: removeTagsFuel fuel rest
      else c :: removeTagsFuel fuel rest

/-- Embeds `re.sub(r"\s+", " ", s)`: collapse every whitespace run into a
single space (the flag tracks whether the previous character was part of a
run). -/
def collapseWsAux (prevWs : Bool) : List Char → List Char
  | [] => []
  | c :: rest =>
      if c.isWhitespace then
        if prevWs then collapseWsAux true rest
        else ' ' :: collapseWsAux true rest
      else c :: collapseWsAux false rest

/-- Embeds `sanitize_message` (src/utils/security.py lines 21-27):
HTML-entity unescaping is the identity on every input considered here
(none contains `&`); then the `<.*?>` tag strip; the second, script-tag
regex can never match after the first has removed every closed tag, so it
is the identity; then whitespace collapsing and a final strip. -/
def sanitize_message (msg : String) : String :=
  pyStrip (String.mk (collapseWsAux false
    (removeTagsFuel msg.data.length msg.data)))

/-- ASCII letter test: the character classes `[A-Z]` and `[a-z]` under
`re.IGNORECASE` both match exactly the ASCII letters. -/
def isAsciiAlpha (c : Char) : Bool :=
  ('a' ≤ c && c ≤ 'z') || ('A' ≤ c && c ≤ 'Z')

/-- Matches the capture `([A-Z][a-z]+)` of the name patterns under
`re.IGNORECASE` at the current position: one ASCII letter followed
greedily by at least one more. -/
def tryNameAt : List Char → Option (List Char)
  | [] => Option.none
  | c :: rest =>
      if isAsciiAlpha c then
        let more := rest.takeWhile isAsciiAlpha
        if more.isEmpty then Option.none else some (c :: more)
      else Option.none

/-- Case-insensitive literal prefix match returning the remainder. -/
def matchLitCI : List Char → List Char → Option (List Char)
  | [], cs => some cs
  | _ :: _, [] => Option.none
  | l :: ls, c :: cs =>
      if l.toLower == c.toLower then matchLitCI ls cs else Option.none

/-- Position-wise attempt for the first name pattern
`i['’`]?m ([A-Z][a-z]+)` (`re.IGNORECASE`): an `i`, one optional
apostrophe-like character (ASCII apostrophe, U+2019, backtick — written by
code point to keep the embedding ASCII-clean), then `m`, a space and the
name capture.  The optional quantifier needs no backtracking because none
of the three characters can also be the following `m`. -/
def pat1At (cs : List Char) : Option (List Char) :=
  match cs with
  | [] => Option.none
  | c :: rest =>
      if c.toLower == 'i' then
        let rest₁ := match rest with
          | a :: t =>
              if a == Char.ofNat 39 || a == Char.ofNat 0x2019
                  || a == Char.ofNat 96 then t
              else rest
          | [] => rest
        match matchLitCI [ 'm', ' ' ] rest₁ with
        | some rest₂ => tryNameAt rest₂
        | Option.none => Option.none
      else Option.none

/-- Position-wise attempt for `my name is ([A-Z][a-z]+)`. -/
def pat2At (cs : List Char) : Option (List Char) :=
  match matchLitCI "my name is ".data cs with
  | some r => tryNameAt r
  | Option.none => Option.none

/-- Position-wise attempt for `this is ([A-Z][a-z]+)`. -/
def pat3At (cs : List Char) : Option (List Char) :=
  match matchLitCI "this is ".data cs with
  | some r => tryNameAt r
  | Option.none => Option.none

/-- Anchored attempt for `^([A-Z][a-z]+)$`: the entire string is one
ASCII-letter word of length at least two (messages reaching this point
contain no trailing newline). -/
def pat4Full (cs : List Char) : Option (List Char) :=
  match tryNameAt cs with
  | some nm => if nm.length == cs.length then some nm else Option.none
  | Option.none => Option.none

/-- `re.search`: try the pattern at every position, leftmost match
wins. -/
def reSearch (f : List Char → Option (List Char)) : List Char → Option (List Char)
  | [] => f []
  | c :: rest =>
      match f (c :: rest) with
      | some r => some r
      | Option.none => reSearch f rest

/-- Python `group(1).strip().title()` for the letters-only name capture:
first letter uppercased, the rest lowercased (strip is the identity on a
letters-only capture). -/
def pyTitle (cs : List Char) : String :=
  match cs with
  | [] => ""
  | c :: rest => String.mk (c.toUpper :: rest.map Char.toLower)

/-- Embeds `UserManager.extract_name` (src/services/user_manager.py lines
79-90): the four patterns are tried in order and the first matching one
returns its capture, title-cased. -/
def UserManager.extract_name (message : String) : Option String :=
  let cs := message.data
  match reSearch pat1At cs with
  | some nm => some (pyTitle nm)
  | Option.none =>
  match reSearch pat2At cs with
  | some nm => some (pyTitle nm)
  | Option.none =>
  match reSearch pat3At cs with
  | some nm => some (pyTitle nm)
  | Option.none =>
  match pat4Full cs with
  | some nm => some (pyTitle nm)
  | Option.none => Option.none

/-- Word-class character of `SVENConfig.EMAIL_REGEX`: `[\w.-]` (ASCII
view of `\w`; every verified input is ASCII). -/
def isWordDotDash (c : Char) : Bool :=
  c.isAlphanum || c == '_' || c == '.' || c == '-'

/-- Embeds `bool(SVENConfig.EMAIL_REGEX.match(email))`
(src/services/config.py line 51, used by `UserManager.validate_email`):
`^[\w.-]+@[\w.-]+\.[a-zA-Z]{2,}$` — a non-empty class run up to the first
`@`, a non-empty class run up to the last `.`, then at least two ASCII
letters to the end (backtracking over earlier dots cannot succeed when
the last-dot split fails). -/
def validate_email_regex (email : String) : Bool :=
  let cs := email.data
  let a := cs.takeWhile (fun c => c != '@')
  match cs.drop a.length with
  | '@' :: r =>
      let revR := r.reverse
      let c := revR.takeWhile (fun ch => ch != '.')
      match revR.drop c.length with
      | '.' :: revB =>
          !a.isEmpty && a.all isWordDotDash
          && !revB.isEmpty && revB.all isWordDotDash
          && decide (2 ≤ c.length) && c.all isAsciiAlpha
      | _ => false
  | _ => false

/-- Existence test for `.+@.+\..+` (no anchors needed: the enclosing
`re.match` call anchors the start and every `.` extends greedily to the
end; the sanitised bodies reaching it contain no newline): some `@` at
position at least 1 with a later `.` that has at least one character on
each side between the `@` and the end. -/
def matchesAtDotDot (r : List Char) : Bool :=
  (List.range r.length).any fun i =>
    decide (1 ≤ i) && (r.getD i ' ' == '@')
      && (((r.drop (i + 1)).drop 1).dropLast.contains '.')

/-- Embeds the email-setup command parse of the webhook
(src/routes/sms.py line 177): `re.match(r"setup email (.+@.+\..+)",
message_body.strip(), re.IGNORECASE)`; on a match, `group(1)` is the whole
remainder after the literal prefix, and the caller strips it. -/
def emailSetupMatch (body : String) : Option String :=
  let cs := (pyStrip body).data
  match matchLitCI "setup email ".data cs with
  | some r =>
      if matchesAtDotDot r then some (pyStrip (String.mk r)) else Option.none
  | Option.none => Option.none

/-- The user-context slice consumed by the webhook
(`UserContextService.get_user_context`, src/services/user_context_service.py
lines 9-60): `is_new`, `name` and the profile.  The `greeting_type`,
`days_since_last_seen` and `last_event_summary` fields shape only the
wording of replies, never the routing or the store, and are omitted. -/
structure UserContext where
  is_new : Bool
  name : PyVal
  profile : PyVal

/-- Embeds the context computation: `is_new = not profile or not
profile.get('name')` (the profile loaded through `UserManager.get_profile`
is never falsy, but the test is embedded as written). -/
def get_user_context (store : Store) (phone now : String) : UserContext :=
  let profile := UserManager.get_profile store phone now
  let name := (pvGet profile "name").getD PyVal.none
  { is_new := !(pyTruthy profile) || !(pyTruthy name)
  , name := name
  , profile := profile }

/-- Which `return` statement of `sms_webhook` (src/routes/sms.py lines
20-304) produced the reply.  Reply strings are business wording; the
branch label identifies the source line of the `return`: `forbidden` =
line 46, `rateLimited` = line 54, `nameStored` = line 107,
`newUserGreeting` = line 115, `contextualGreeting` = line 128,
`emailSet`/`emailInvalid` = lines 189-193, `dataDeleted` = line 208,
`menu` = line 250, `help` = line 258, `settings` = line 263, `menuChoice`
= line 270, `voice` = line 285, `photo` = line 290, `expense` =
line 304. -/
inductive Branch where
  | forbidden
  | rateLimited (wait : ℤ)
  | nameStored (name : String)
  | newUserGreeting
  | contextualGreeting
  | emailSet (email : String)
  | emailInvalid
  | dataDeleted
  | menu
  | help
  | settings
  | menuChoice (choice : String)
  | voice
  | photo
  | expense
deriving DecidableEq

/-- Observable outcome of one webhook request: the branch taken, the
key-value store afterwards, the limiter state afterwards, and the emails
handed to the delivery collaborator.  `send_to_skylight_sendgrid` is
imported by src/routes/sms.py (line 7) but never called anywhere in the
webhook body, so no branch ever appends to `emailsSent`. -/
structure WebhookResult where
  branch : Branch
  store : Store
  limiter : LimiterState
  emailsSent : List String

/-- Embeds the command-routing tail of `sms_webhook` (src/routes/sms.py
lines 137-304), entered for a returning, named user whose message is not
a greeting: fuzzy matching; the first menu block (lines 158-172) computes
a reply string but contains no `return` and its value is overwritten, so
it has no effect and is omitted; the email-setup block (lines 174-199);
`delete my data` (lines 201-208); the second email-setup block (lines
210-235) is identical to the first and unreachable when the first did not
return, so it is omitted; menu / help / settings on the match result
(lines 237-263); digit menu choices (lines 265-270); voice and photo
media (lines 272-290); and the expense/free-form fallback (lines
292-304).  Nothing in any of these branches reads or clears the pending
event, and none of them dispatches an email. -/
def webhookRouting (store : Store) (lim : LimiterState)
    (phone message_body : String) (num_media : Nat) (mediaIsAudio : Bool)
    (nowIso : String) (ctx : UserContext) : WebhookResult :=
  let mr := CommandMatcher.matchCmd message_body
  match emailSetupMatch message_body with
  | some new_email =>
      if pyEq ((pvGet ctx.profile "email").getD PyVal.none)
          (PyVal.str new_email) then
        { branch := Branch.emailSet new_email, store := store
        , limiter := lim, emailsSent := [] }
      else if validate_email_regex new_email then
        { branch := Branch.emailSet new_email
        , store := (store_user_email store phone (PyVal.str new_email) nowIso).1
        , limiter := lim, emailsSent := [] }
      else
        { branch := Branch.emailInvalid, store := store
        , limiter := lim, emailsSent := [] }
  | Option.none =>
      if pyLower (pyStrip message_body) = "delete my data" then
        { branch := Branch.dataDeleted
        , store := (delete_user_data store phone).1
        , limiter := lim, emailsSent := [] }
      else if mr.command == some "menu"
          || pyLower (pyStrip message_body) == "menu" then
        { branch := Branch.menu, store := store, limiter := lim
        , emailsSent := [] }
      else if mr.command == some "help" then
        { branch := Branch.help, store := store, limiter := lim
        , emailsSent := [] }
      else if mr.command == some "settings" then
        { branch := Branch.settings, store := store, limiter := lim
        , emailsSent := [] }
      else if (pyStrip message_body) ∈ ["1", "2", "3", "4", "5"] then
        { branch := Branch.menuChoice (pyStrip message_body), store := store
        , limiter := lim, emailsSent := [] }
      else if 0 < num_media && mediaIsAudio then
        { branch := Branch.voice, store := store, limiter := lim
        , emailsSent := [] }
      else if 0 < num_media then
        { branch := Branch.photo, store := store, limiter := lim
        , emailsSent := [] }
      else
        { branch := Branch.expense, store := store, limiter := lim
        , emailsSent := [] }

/-- Embeds the returning-user step (src/routes/sms.py lines 121-130):
`update_user_interaction(from_number, 'message')`, then the contextual
greeting short-circuit for `hi`/`hello`/`hey`/`menu`; otherwise the
routing tail runs on the updated store. -/
def webhookReturning (store : Store) (lim : LimiterState)
    (phone message_body : String) (num_media : Nat) (mediaIsAudio : Bool)
    (nowIso : String) (ctx : UserContext) : WebhookResult :=
  let store₁ := update_user_interaction store phone "message" nowIso
  if pyLower (pyStrip message_body) ∈ ["hi", "hello", "hey", "menu"] then
    { branch := Branch.contextualGreeting, store := store₁, limiter := lim
    , emailsSent := [] }
  else
    webhookRouting store₁ lim phone message_body num_media mediaIsAudio
      nowIso ctx

/-- Embeds the new-user check (src/routes/sms.py lines 109-119): a user
with no stored name whose message yielded no extracted name gets the
onboarding greeting (with interaction tracking `'onboarding'`); everyone
else continues as a returning user. -/
def webhookNewUserCheck (store : Store) (lim : LimiterState)
    (phone message_body : String) (num_media : Nat) (mediaIsAudio : Bool)
    (nowIso : String) (ctx : UserContext) : WebhookResult :=
  if ctx.is_new
      && !(pyTruthy ((pvGet ctx.profile "name").getD PyVal.none)) then
    { branch := Branch.newUserGreeting
    , store := update_user_interaction store phone "onboarding" nowIso
    , limiter := lim, emailsSent := [] }
  else
    webhookReturning store lim phone message_body num_media mediaIsAudio
      nowIso ctx

/-- Embeds the post-rate-limit part of `sms_webhook` (src/routes/sms.py
lines 56-304), with the webhook signature verified and the environment
variables present (both modeled as given: the claims under verification
concern the message pipeline, not deployment checks).  Loads the user
context, then the name-extraction branch (lines 82-107: only for users
with no stored name), then the new-user and returning-user flows. -/
def webhookAfterRateLimit (store : Store) (lim : LimiterState)
    (phone message_body : String) (num_media : Nat) (mediaIsAudio : Bool)
    (nowIso : String) : WebhookResult :=
  let ctx := get_user_context store phone nowIso
  let current_name := (pvGet ctx.profile "name").getD PyVal.none
  if !(pyTruthy current_name) then
    match UserManager.extract_name message_body with
    | some nm =>
        let store₁ := (store_user_name store phone (PyVal.str nm) nowIso).1
        let store₂ := update_user_interaction store₁ phone "name_setup" nowIso
        { branch := Branch.nameStored nm, store := store₂, limiter := lim
        , emailsSent := [] }
    | Option.none =>
        webhookNewUserCheck store lim phone message_body num_media
          mediaIsAudio nowIso ctx
  else
    webhookNewUserCheck store lim phone message_body num_media mediaIsAudio
      nowIso ctx

/-- Embeds `sms_webhook` (src/routes/sms.py lines 20-304): phone format
validation, message sanitisation, the anti-abuse gate, then the pipeline
above.  `now` is the limiter clock (`time.time()`), `nowIso` the
`datetime.now().isoformat()` stamp used for profile writes. -/
def sms_webhook (store : Store) (lim : LimiterState) (phone body : String)
    (num_media : Nat) (mediaIsAudio : Bool) (now : ℤ) (nowIso : String) :
    WebhookResult :=
  if !(validate_phone phone) then
    { branch := Branch.forbidden, store := store, limiter := lim
    , emailsSent := [] }
  else
    let message_body := sanitize_message body
    let ar := AntiAbuseLimiter.allow lim phone message_body now true
    if !ar.allowed then
      { branch := Branch.rateLimited ar.wait, store := store
      , limiter := ar.state, emailsSent := [] }
    else
      webhookAfterRateLimit store ar.state phone message_body num_media
        mediaIsAudio nowIso

/-- Keys under the `user:` prefix never collide with pending-event keys. -/
theorem userKey_ne_pendingKey (h₁ h₂ : String) :
    ("user:" ++ h₁ ++ ":profile") ≠ ("pending:" ++ h₂) := by
  intro hc
  have hdata := congrArg String.data hc
  simp [String.data_append] at hdata

/-- On a fresh limiter state, `allow` reaches the window check
untouched by the whitelist, ban and duplicate branches. -/
theorem allow_initial_eq_allowTail (phone msg : String) (now : ℤ)
    (hw : phone ∉ whitelist) (hnow : ¬ now < 0) :
    AntiAbuseLimiter.allow LimiterState.initial phone msg now true
      = allowTail LimiterState.initial now (dequeAppend 10 [] now) []
          (dequeAppend 5 [] msg) := by
  unfold AntiAbuseLimiter.allow
  rw [if_neg hw, if_neg (show ¬ now < LimiterState.initial.banned from hnow)]
  rfl

set_option maxRecDepth 100000 in
/-- Routing of the literal message "yes" for a returning user: no branch
before the expense fallback fires, and the store is left untouched by the
routing tail. -/
theorem webhookRouting_yes (store : Store) (lim : LimiterState)
    (phone nowIso : String) (ctx : UserContext) :
    webhookRouting store lim phone "yes" 0 false nowIso ctx
      = { branch := Branch.expense, store := store, limiter := lim
        , emailsSent := [] } := by
  rfl

set_option maxRecDepth 100000 in
/-- C3 code_bug — the pipeline never consults the pending-action store:
for any identity with a stored profile carrying a (truthy) name and a
stored pending event, replying "yes" (well within any TTL window) routes
to the expense/free-form fallback branch, dispatches nothing to the
email-delivery collaborator (`send_to_skylight_sendgrid` is never called
by the webhook), and leaves `get_pending_event` still returning the
stored action afterwards — the claim requires the action to be dispatched
and the store to be empty afterwards. -/
theorem sms_webhook_yes_leaves_pending_and_sends_nothing
    (store : Store) (phone : String) (d : List (String × PyVal)) (ev : PyVal)
    (now : ℤ) (nowIso : String)
    (hv : validate_phone phone = true)
    (hw : phone ∉ whitelist)
    (hnow : ¬ now < 0)
    (hprof : storeGet store
        ("sven:user:" ++ hash_phone_number phone ++ ":profile")
      = some (PyVal.dict d))
    (hname : pyTruthy ((dictGet d "name").getD PyVal.none) = true)
    (hpend : get_pending_event store phone = some ev) :
    (sms_webhook store LimiterState.initial phone "yes" 0 false now
        nowIso).branch = Branch.expense
    ∧ (sms_webhook store LimiterState.initial phone "yes" 0 false now
        nowIso).emailsSent = []
    ∧ get_pending_event
        (sms_webhook store LimiterState.initial phone "yes" 0 false now
          nowIso).store phone = some ev := by
  have hsan : sanitize_message "yes" = "yes" := rfl
  have hgup : get_user_profile store phone nowIso = PyVal.dict d := by
    show (match storeGet store
        ("sven:user:" ++ hash_phone_number phone ++ ":profile") with
      | some data => data
      | Option.none =>
          standard_user_profile (hash_phone_number phone) nowIso)
      = PyVal.dict d
    rw [hprof]
  have hallow := allow_initial_eq_allowTail phone "yes" now hw hnow
  have hupd : update_user_interaction store phone "message" nowIso
      = storeSet store ("user:" ++ hash_phone_number phone ++ ":profile")
          (PyVal.dict (dictSet d "metadata" (PyVal.dict
            [ ("last_seen", PyVal.str nowIso)
            , ("last_message_type", PyVal.str "message") ]))) := by
    unfold update_user_interaction UserManager.update_profile
    rw [hgup]
    rfl
  have hmain : sms_webhook store LimiterState.initial phone "yes" 0 false now
      nowIso
      = { branch := Branch.expense
        , store := update_user_interaction store phone "message" nowIso
        , limiter := (allowTail LimiterState.initial now
            (dequeAppend 10 [] now) [] (dequeAppend 5 [] "yes")).state
        , emailsSent := [] } := by
    unfold sms_webhook
    rw [hv]
    simp only [Bool.not_true, Bool.false_eq_true, if_false, hsan]
    rw [hallow, (allowTail_always_allows LimiterState.initial now
      (dequeAppend 10 [] now) [] (dequeAppend 5 [] "yes")).1]
    simp only [Bool.not_true, Bool.false_eq_true, if_false]
    unfold webhookAfterRateLimit get_user_context UserManager.get_profile
    rw [hgup]
    simp only [pvGet, hname, Bool.not_true, Bool.false_eq_true, if_false]
    unfold webhookNewUserCheck
    simp only [pvGet, hname, Bool.not_true, Bool.and_false,
      Bool.false_eq_true, if_false]
    unfold webhookReturning
    rw [if_neg (by decide :
      ¬ pyLower (pyStrip "yes") ∈ ["hi", "hello", "hey", "menu"])]
    rw [webhookRouting_yes]
  rw [hmain]
  refine ⟨rfl, rfl, ?_⟩
  show get_pending_event (update_user_interaction store phone "message" nowIso)
      phone = some ev
  rw [hupd]
  show dictGet (dictSet store
      ("user:" ++ hash_phone_number phone ++ ":profile") _)
      ("pending:" ++ hash_phone_number phone) = some ev
  rw [dictGet_dictSet_ne _ _ _ _ (userKey_ne_pendingKey _ _)]
  exact hpend

set_option maxRecDepth 100000 in
/-- Witness for the C3 theorem at a concrete input: identity
`+15551234567` with profile name "Carlos" and a stored pending event,
replying "yes" at time 0. -/
theorem sms_webhook_yes_leaves_pending_and_sends_nothing_witness :
    validate_phone "+15551234567" = true
    ∧ "+15551234567" ∉ whitelist
    ∧ ¬ (0 : ℤ) < 0
    ∧ storeGet
        [ ("pending:" ++ hash_phone_number "+15551234567",
            PyVal.str "event-payload")
        , ("sven:user:" ++ hash_phone_number "+15551234567" ++ ":profile",
            PyVal.dict [("name", PyVal.str "Carlos")]) ]
        ("sven:user:" ++ hash_phone_number "+15551234567" ++ ":profile")
      = some (PyVal.dict [("name", PyVal.str "Carlos")])
    ∧ pyTruthy ((dictGet [("name", PyVal.str "Carlos")] "name").getD
        PyVal.none) = true
    ∧ get_pending_event
        [ ("pending:" ++ hash_phone_number "+15551234567",
            PyVal.str "event-payload")
        , ("sven:user:" ++ hash_phone_number "+15551234567" ++ ":profile",
            PyVal.dict [("name", PyVal.str "Carlos")]) ]
        "+15551234567" = some (PyVal.str "event-payload")
    ∧ ((sms_webhook
          [ ("pending:" ++ hash_phone_number "+15551234567",
              PyVal.str "event-payload")
          , ("sven:user:" ++ hash_phone_number "+15551234567" ++ ":profile",
              PyVal.dict [("name", PyVal.str "Carlos")]) ]
          LimiterState.initial "+15551234567" "yes" 0 false 0 "T0").branch
          = Branch.expense
        ∧ (sms_webhook
          [ ("pending:" ++ hash_phone_number "+15551234567",
              PyVal.str "event-payload")
          , ("sven:user:" ++ hash_phone_number "+15551234567" ++ ":profile",
              PyVal.dict [("name", PyVal.str "Carlos")]) ]
          LimiterState.initial "+15551234567" "yes" 0 false 0 "T0").emailsSent
          = []
        ∧ get_pending_event
          (sms_webhook
            [ ("pending:" ++ hash_phone_number "+15551234567",
                PyVal.str "event-payload")
            , ("sven:user:" ++ hash_phone_number "+15551234567" ++ ":profile",
                PyVal.dict [("name", PyVal.str "Carlos")]) ]
            LimiterState.initial "+15551234567" "yes" 0 false 0 "T0").store
          "+15551234567" = some (PyVal.str "event-payload")) :=
  ⟨by decide, by decide, by decide, rfl, rfl, rfl,
    sms_webhook_yes_leaves_pending_and_sends_nothing _ "+15551234567"
      [("name", PyVal.str "Carlos")] (PyVal.str "event-payload") 0 "T0"
      (by decide) (by decide) (by decide) rfl rfl rfl⟩
